import Mathlib

/-!
Verification development for the sre-copilot repository.

The definitions below are a shallow embedding of the conversational core
(`src/agent.py`, `src/config.py`, `src/tools/*.py`): message data model,
the `SREAgent.chat` / `chat_stream` turn controller, conversation-history
rendering, the capability gate, and the tool-error boundary.
-/

namespace SRECopilot

/-- A content block inside a message content list.
In the source a block is either a `dict` (read via `block.get("text", "")`,
so a dict without a text field behaves as `textBlock ""`) or any other
value rendered by `str(block)`. -/
inductive Block where
  | textBlock (s : String)
  | other (s : String)
deriving DecidableEq

/-- Message content: either a plain string or a list of content blocks,
mirroring `msg.content` being `str` or `list` in the source. -/
inductive Content where
  | text (s : String)
  | blocks (bs : List Block)
deriving DecidableEq

/-- A LangChain message as used by `src/agent.py`:
`HumanMessage`, `AIMessage` (with its `tool_calls` list of tool names),
`SystemMessage`, `ToolMessage` (with its tool call id). -/
inductive Msg where
  | human (content : Content)
  | ai (content : Content) (toolCalls : List String)
  | system (content : Content)
  | tool (content : Content) (callId : String)
deriving DecidableEq

/-- Python truthiness of `msg.content`: a string is truthy iff non-empty,
a list is truthy iff non-empty. -/
def contentTruthy : Content → Bool
  | Content.text s => !s.isEmpty
  | Content.blocks bs => !bs.isEmpty

/-- `block.get("text", "") if isinstance(block, dict) else str(block)`
(agent.py lines 378-380 and 459-461). -/
def blockText : Block → String
  | Block.textBlock s => s
  | Block.other s => s

/-- Python substring containment `needle in hay`. -/
def strContains (hay needle : String) : Bool :=
  (List.range (hay.data.length + 1)).any (fun i => needle.data.isPrefixOf (hay.data.drop i))

/-- The apostrophe character, used in string literals from the source. -/
def apos : String := (Char.ofNat 39).toString

/-- The fixed system instruction `SYSTEM_PROMPT` of agent.py (the literal
is abbreviated to its first sentence; only its identity as the fixed system
message matters to the properties below). -/
def SYSTEM_PROMPT : String :=
  "You are an expert SRE (Site Reliability Engineering) assistant helping engineers with on-call duties, incident response, and observability."

/-- `isinstance(m, SystemMessage)`. -/
def isSystemMsg : Msg → Bool
  | Msg.system _ => true
  | _ => false

/-- `agent_node` system-message injection (agent.py lines 302-311): the
message list passed to the LLM is the state, with the fixed system prompt
prepended when the state is empty or does not start with a SystemMessage.
The prepend is local to the backbone call; the state update appends only
the response. -/
def agentPrompt (msgs : List Msg) : List Msg :=
  match msgs with
  | [] => [Msg.system (Content.text SYSTEM_PROMPT)]
  | m :: _ => if isSystemMsg m then msgs else Msg.system (Content.text SYSTEM_PROMPT) :: msgs

/-! ## Configuration (`src/config.py`) and the capability gate -/

/-- The `Config` dataclass of config.py (field defaults as in the source). -/
structure Config where
  anthropic_api_key : String := ""
  claude_model : String := "claude-sonnet-4-5-20250929"
  datadog_api_key : String := ""
  datadog_app_key : String := ""
  datadog_site : String := "datadoghq.com"
  pagerduty_api_key : String := ""
  kubeconfig_path : String := "~/.kube/config"
  k8s_enabled : Bool := true
  aws_region : String := "us-east-1"
  aws_access_key : String := ""
  aws_secret_key : String := ""
  aws_profile : String := ""
  sqs_enabled : Bool := true
deriving DecidableEq

/-- `Config.is_anthropic_configured`: `bool(self.anthropic_api_key)`. -/
def is_anthropic_configured (c : Config) : Bool :=
  !c.anthropic_api_key.isEmpty

/-- `Config.is_datadog_configured`: `bool(api_key and app_key)`. -/
def is_datadog_configured (c : Config) : Bool :=
  !c.datadog_api_key.isEmpty && !c.datadog_app_key.isEmpty

/-- `Config.is_pagerduty_configured`: `bool(self.pagerduty_api_key)`. -/
def is_pagerduty_configured (c : Config) : Bool :=
  !c.pagerduty_api_key.isEmpty

/-- `Config.is_kubernetes_configured`:
`self.k8s_enabled and os.path.exists(os.path.expanduser(self.kubeconfig_path))`.
The local filesystem and `os.path.expanduser` are passed in as functions. -/
def is_kubernetes_configured (pathExists : String → Bool) (expandUser : String → String)
    (c : Config) : Bool :=
  c.k8s_enabled && pathExists (expandUser c.kubeconfig_path)

/-- `Config.is_sqs_configured`: `self.sqs_enabled`. -/
def is_sqs_configured (c : Config) : Bool :=
  c.sqs_enabled

/-- Tool names registered by `create_datadog_tools` (langchain_tools.py). -/
def datadogToolNames : List String :=
  ["datadog_get_apm_services", "datadog_get_service_stats",
   "datadog_search_traces", "datadog_get_trace_details"]

/-- Tool names registered by `create_pagerduty_tools` (langchain_tools.py). -/
def pagerdutyToolNames : List String :=
  ["pagerduty_get_incidents", "pagerduty_get_incident_details",
   "pagerduty_get_oncall", "pagerduty_get_services",
   "pagerduty_acknowledge_incident", "pagerduty_resolve_incident",
   "pagerduty_get_recent_alerts"]

/-- Tool names registered by `create_kubernetes_tools` (langchain_tools.py). -/
def kubernetesToolNames : List String :=
  ["k8s_get_contexts", "k8s_get_namespaces", "k8s_list_pods", "k8s_get_pod_logs"]

/-- Tool names registered by `create_sqs_tools` (langchain_tools.py). -/
def sqsToolNames : List String :=
  ["sqs_list_queues", "sqs_get_queue_attributes", "sqs_peek_messages", "sqs_get_queue_url"]

/-- `SREAgent._setup_tools` (agent.py lines 249-276): the names of the tools
registered, one fixed block per integration, included exactly when the
integration reports configured. -/
def setupToolNames (pathExists : String → Bool) (expandUser : String → String)
    (c : Config) : List String :=
  (if is_datadog_configured c then datadogToolNames else []) ++
  (if is_pagerduty_configured c then pagerdutyToolNames else []) ++
  (if is_kubernetes_configured pathExists expandUser c then kubernetesToolNames else []) ++
  (if is_sqs_configured c then sqsToolNames else [])

/-- `self._compiled_graph` is non-None exactly when the LLM was set up:
`_setup_llm` returns early unless `is_anthropic_configured`, and
`_setup_graph` returns early unless `self._llm` (agent.py 278-296). -/
def agentGraphReady (c : Config) : Bool :=
  is_anthropic_configured c

/-! ## The synchronous turn (`SREAgent.chat`, agent.py lines 343-393) -/

/-- Rendering of an `AIMessage` content by `chat` (agent.py lines 377-383):
a string content is returned as is; a block-list content is the newline
join of the block texts with falsy (empty) parts removed by
`filter(None, text_parts)`. -/
def renderContentChat : Content → String
  | Content.text s => s
  | Content.blocks bs =>
      String.intercalate "\n" ((bs.map blockText).filter (fun s => !s.isEmpty))

/-- The scan `for msg in reversed(messages)` of `chat` (agent.py 374-383),
applied here to the already-reversed list: the first `AIMessage` with
truthy content yields its rendered content. -/
def chatScan : List Msg → Option String
  | [] => none
  | Msg.ai c _ :: rest => if contentTruthy c then some (renderContentChat c) else chatScan rest
  | _ :: rest => chatScan rest

/-- The fallback returned by `chat` when no `AIMessage` has truthy content
(agent.py line 385). -/
def chatFallback : String :=
  "I apologize, but I couldn" ++ apos ++ "t generate a response. Please try again."

/-- `chat`'s extraction of the final response from `result["messages"]`
(agent.py lines 373-385). -/
def chatResult (msgs : List Msg) : String :=
  (chatScan msgs.reverse).getD chatFallback

/-- The early-return string of `chat` and `chat_stream` when
`self._compiled_graph` is None (agent.py lines 354-355, 406-408). -/
def notConfiguredReply : String :=
  "Error: Agent not properly configured. Please check your API keys."

/-- The context-length heuristic of `chat` (agent.py line 391):
`"prompt is too long" in e or ("tokens" in e and "maximum" in e)`. -/
def isContextLimitError (e : String) : Bool :=
  strContains e "prompt is too long" || (strContains e "tokens" && strContains e "maximum")

/-- `SREAgent.chat` (agent.py lines 343-393). The graph invocation is
passed in as a function from (checkpointed history, user message) to the
new checkpointed message state paired with `none` on success or
`some errorText` when the invocation raised; on success the returned
state is also `result["messages"]`, from which the reply is extracted.
The configuration guard returns before the graph is ever invoked, leaving
the checkpointed history untouched. -/
def chatTurn (c : Config) (history : List Msg) (userMessage : String)
    (graphInvoke : List Msg → String → List Msg × Option String) : String × List Msg :=
  if !agentGraphReady c then (notConfiguredReply, history)
  else
    match graphInvoke history userMessage with
    | (h, none) => (chatResult h, h)
    | (h, some e) =>
        (if isContextLimitError e then "CONVERSATION_LIMIT_EXCEEDED" else "Error: " ++ e, h)

/-! ## The streaming turn (`SREAgent.chat_stream`, agent.py lines 395-441) -/

/-- The chunks yielded for the last message of one streamed event
(agent.py lines 425-437): an `AIMessage` yields its text content (for a
block list, only dict blocks with truthy text), then one advisory marker
per tool call; other message kinds yield nothing. -/
def streamChunksOfMsg : Msg → List String
  | Msg.ai c calls =>
      (if contentTruthy c then
        match c with
        | Content.text s => [s]
        | Content.blocks bs =>
            bs.filterMap (fun b =>
              match b with
              | Block.textBlock t => if t.isEmpty then none else some t
              | Block.other _ => none)
      else []) ++
      calls.map (fun n => "\n\n*Using " ++ n ++ "...*\n")
  | _ => []

/-- Chunks of one event: the event's message list is inspected at its last
element (agent.py lines 423-426). -/
def streamEventChunks (ev : List Msg) : List String :=
  match ev.getLast? with
  | some m => streamChunksOfMsg m
  | none => []

/-- `SREAgent.chat_stream` (agent.py lines 395-441): the list of yielded
chunks, given the streamed event states and `some errorText` when the
graph raised during streaming. The exception handler always yields the
generic `"Error: " ++ e` chunk (agent.py line 441), with no context-limit
classification. -/
def chatStream (c : Config) (events : List (List Msg)) (failure : Option String) : List String :=
  if !agentGraphReady c then [notConfiguredReply]
  else
    (events.map streamEventChunks).flatten ++
    (match failure with
     | some e => ["Error: " ++ e]
     | none => [])

/-! ## History rendering (`SREAgent.get_conversation_history`, agent.py 443-467) -/

/-- One rendered history entry `{"role": ..., "content": ...}`. -/
structure HistEntry where
  role : String
  content : Content
deriving DecidableEq

/-- Rendering of an `AIMessage` content by `get_conversation_history`
(agent.py lines 457-462): a block list is joined with newlines with no
filtering of empty parts (unlike `chat`). -/
def renderContentHist : Content → String
  | Content.text s => s
  | Content.blocks bs => String.intercalate "\n" (bs.map blockText)

/-- The per-message branch of `get_conversation_history` (agent.py
453-463): `HumanMessage` becomes a user entry with its raw content;
`AIMessage` with truthy content becomes an assistant entry with joined
content; everything else (system, tool, empty assistant) is skipped. -/
def renderMsg : Msg → Option HistEntry
  | Msg.human c => some ⟨"user", c⟩
  | Msg.ai c _ =>
      if contentTruthy c then some ⟨"assistant", Content.text (renderContentHist c)⟩ else none
  | _ => none

/-- The rendering loop of `get_conversation_history`. -/
def renderMsgs (msgs : List Msg) : List HistEntry :=
  msgs.filterMap renderMsg

/-- `SREAgent.get_conversation_history` (agent.py 443-467): returns `[]`
when no checkpointer is present, `[]` when reading the graph state raised
(the bare `except` at line 466), and otherwise renders the state's
message list. -/
def getConversationHistory (hasCheckpointer : Bool)
    (stateRead : Except String (List Msg)) : List HistEntry :=
  if !hasCheckpointer then []
  else
    match stateRead with
    | Except.error _ => []
    | Except.ok msgs => renderMsgs msgs

/-- The `MemorySaver` checkpointer state: a map from thread id to the
checkpointed message list of that thread. -/
def MemorySaver : Type := String → List Msg

/-- `SREAgent.clear_history` (agent.py 469-472): the body is `pass`. -/
def clear_history (saver : MemorySaver) (threadId : String) : MemorySaver :=
  saver

/-! ## Session evolution through the graph

`add_messages` only ever appends: a successful turn appends the
`HumanMessage` input, then, per round of the agent/tools loop
(agent.py 321-334), an `AIMessage` carrying tool calls followed by one
`ToolMessage` per call, and finally the closing `AIMessage` without tool
calls. The system message prepended inside `agent_node` is a local
variable and is never part of the state update (`return {"messages":
[response]}`, agent.py line 311). -/

/-- One agent/tools round of a turn: the assistant decision with its tool
calls, and the tool results (content paired with the call id) appended by
`ToolNode`. -/
structure Round where
  aiContent : Content
  aiCalls : List String
  results : List (Content × String)
deriving DecidableEq

/-- The messages a round appends to the state. -/
def roundMsgs (r : Round) : List Msg :=
  Msg.ai r.aiContent r.aiCalls :: r.results.map (fun p => Msg.tool p.1 p.2)

/-- One successful turn: the user message, its tool rounds, and the final
assistant message (no tool calls, hence the END edge). -/
structure Turn where
  user : Content
  rounds : List Round
  finalContent : Content
deriving DecidableEq

/-- The messages a successful turn appends to the state. -/
def turnMsgs (t : Turn) : List Msg :=
  Msg.human t.user :: ((t.rounds.map roundMsgs).flatten ++ [Msg.ai t.finalContent []])

/-- The checkpointed state of a session after a list of successful turns,
starting from the empty state of a fresh thread. -/
def sessionState (turns : List Turn) : List Msg :=
  (turns.map turnMsgs).flatten

/-! ## The tool-error boundary (`src/tools/*.py`) -/

/-- A tool's structured result: a normal payload dict or an error dict
`{"error": message}`. -/
inductive ToolResult where
  | ok (payload : String)
  | error (msg : String)
deriving DecidableEq

/-- Python `str.lower()` as used on error strings (character-wise). -/
def lowerString (s : String) : String :=
  String.mk (s.data.map Char.toLower)

/-- `PagerDutyTools._handle_error` (pagerduty_tools.py 40-57);
`lowerString e` is the source's `error_lower = error_str.lower()`. -/
def pdHandleError (apiKey : String) (e : String) (operation : String) : ToolResult :=
  if strContains e "401" || strContains (lowerString e) "unauthorized" ||
      strContains (lowerString e) "authentication" then
    if apiKey.isEmpty then
      ToolResult.error "PagerDuty API key not configured. Please add PAGERDUTY_API_KEY environment variable."
    else
      ToolResult.error "PagerDuty authentication failed. Please check that your API key is valid."
  else if strContains e "403" || strContains (lowerString e) "forbidden" then
    ToolResult.error "PagerDuty permission denied. Please check that your API key has the required permissions."
  else
    ToolResult.error ("Failed to " ++ operation ++ ": " ++ e)

/-- `DatadogTools._handle_error` (datadog_tools.py 56-73). -/
def ddHandleError (apiKey appKey : String) (e : String) (operation : String) : ToolResult :=
  if strContains e "401" || strContains (lowerString e) "unauthorized" ||
      strContains (lowerString e) "authentication" then
    if apiKey.isEmpty || appKey.isEmpty then
      ToolResult.error "Datadog API keys not configured. Please add DATADOG_API_KEY and DATADOG_APP_KEY environment variables."
    else
      ToolResult.error "Datadog authentication failed. Please check that your API keys are valid."
  else if strContains e "403" || strContains (lowerString e) "forbidden" then
    ToolResult.error "Datadog permission denied. Please check that your API keys have the required permissions."
  else
    ToolResult.error ("Failed to " ++ operation ++ ": " ++ e)

/-- The common body shape of every `PagerDutyTools` operation
(e.g. `get_incidents`, pagerduty_tools.py 59-132): the not-configured
guard, then the collaborator call inside `try`, whose raised exceptions
are converted by `_handle_error`. The collaborator call itself is the
excluded external boundary and is passed in as its outcome. -/
def pdToolCall (sessionOk : Bool) (apiKey : String) (operation : String)
    (collab : Except String String) : ToolResult :=
  if !sessionOk then ToolResult.error "PagerDuty client not configured"
  else
    match collab with
    | Except.ok r => ToolResult.ok r
    | Except.error e => pdHandleError apiKey e operation

/-- The common body shape of every `DatadogTools` operation
(e.g. `get_monitors`, datadog_tools.py 75-139). -/
def ddToolCall (clientOk : Bool) (apiKey appKey : String) (operation : String)
    (collab : Except String String) : ToolResult :=
  if !clientOk then ToolResult.error "Datadog client not configured"
  else
    match collab with
    | Except.ok r => ToolResult.ok r
    | Except.error e => ddHandleError apiKey appKey e operation

/-- A registered tool: its name, the names of its required arguments
(from the pydantic `args_schema` in langchain_tools.py), and the wrapped
operation over the named string arguments. -/
structure ToolSpec where
  name : String
  required : List String
  run : List (String × String) → ToolResult

/-- Whether every required argument name is present among the supplied
arguments. -/
def hasRequiredArgs (t : ToolSpec) (args : List (String × String)) : Bool :=
  t.required.all (fun r => args.any (fun a => a.1 == r))

/-- Modelled from the spec: the argument-validation step of the registry's
`invoke` lives in the LangChain/pydantic layer, which is not part of this
repository's sources; per spec section 4.2 a missing required argument is
a ValidationError surfaced as a structured error result, never raised to
the caller of `invoke`, after which the wrapped operation runs. -/
def invokeTool (t : ToolSpec) (args : List (String × String)) : ToolResult :=
  if hasRequiredArgs t args then t.run args
  else ToolResult.error ("Missing required argument for tool " ++ t.name)

/-- Whether a message is an `AIMessage` with truthy content — the
condition `isinstance(msg, AIMessage) and msg.content` scanned for by
`chat` (agent.py line 375). -/
def aiWithContent : Msg → Bool
  | Msg.ai c _ => contentTruthy c
  | _ => false

/-- A configuration whose backbone is configured, for concrete evaluations. -/
def sampleConfig : Config := { anthropic_api_key := "k" }

/-! ## Helper lemmas -/

/-- Containment of a needle propagates to a prefix of that needle. -/
theorem strContains_mono_of_isPrefixOf {hay n1 n2 : String}
    (hpre : n1.data.isPrefixOf n2.data = true)
    (h : strContains hay n2 = true) : strContains hay n1 = true := by
  unfold strContains at h ⊢
  rw [List.any_eq_true] at h ⊢
  obtain ⟨i, hi, hp⟩ := h
  refine ⟨i, hi, ?_⟩
  rw [List.isPrefixOf_iff_prefix] at hpre hp ⊢
  exact hpre.trans hp

/-- The scan of `chat` finds nothing when no message is an `AIMessage`
with truthy content. -/
theorem chatScan_eq_none {l : List Msg} (h : ∀ m ∈ l, aiWithContent m = false) :
    chatScan l = none := by
  induction l with
  | nil => rfl
  | cons m rest ih =>
    have hrest : ∀ x ∈ rest, aiWithContent x = false :=
      fun x hx => h x (List.mem_cons_of_mem _ hx)
    have hm : aiWithContent m = false := h m (List.mem_cons_self m rest)
    cases m with
    | ai c calls =>
      have hc : contentTruthy c = false := by simpa [aiWithContent] using hm
      simp [chatScan, hc, ih hrest]
    | human c => simpa [chatScan] using ih hrest
    | system c => simpa [chatScan] using ih hrest
    | tool c cid => simpa [chatScan] using ih hrest

/-- `chat` surfaces the rendered content of a trailing assistant message
with truthy content. -/
theorem chatResult_append_final (pre : List Msg) (c : Content) (calls : List String)
    (hc : contentTruthy c = true) :
    chatResult (pre ++ [Msg.ai c calls]) = renderContentChat c := by
  simp [chatResult, List.reverse_append, chatScan, hc]

/-- No message appended by a tool round is a system message. -/
theorem mem_roundMsgs_not_system {m : Msg} {r : Round} (hm : m ∈ roundMsgs r) :
    isSystemMsg m = false := by
  rcases List.mem_cons.mp hm with rfl | hm2
  · rfl
  · rcases List.mem_map.mp hm2 with ⟨p, hp, rfl⟩
    rfl

/-- No message appended by a successful turn is a system message. -/
theorem mem_turnMsgs_not_system {m : Msg} {t : Turn} (hm : m ∈ turnMsgs t) :
    isSystemMsg m = false := by
  rcases List.mem_cons.mp hm with rfl | hm2
  · rfl
  · rcases List.mem_append.mp hm2 with hm3 | hm4
    · rcases List.mem_flatten.mp hm3 with ⟨l, hl, hml⟩
      rcases List.mem_map.mp hl with ⟨r, hr, rfl⟩
      exact mem_roundMsgs_not_system hml
    · have h4 := List.mem_singleton.mp hm4
      subst h4
      rfl

/-- The checkpointed session state never contains a system message. -/
theorem sessionState_no_system (turns : List Turn) :
    ∀ m ∈ sessionState turns, isSystemMsg m = false := by
  intro m hm
  rcases List.mem_flatten.mp hm with ⟨l, hl, hml⟩
  rcases List.mem_map.mp hl with ⟨t, ht, rfl⟩
  exact mem_turnMsgs_not_system hml

/-- On a state without system messages, `agent_node` prepends exactly the
fixed system prompt. -/
theorem agentPrompt_of_no_system {msgs : List Msg}
    (h : ∀ m ∈ msgs, isSystemMsg m = false) :
    agentPrompt msgs = Msg.system (Content.text SYSTEM_PROMPT) :: msgs := by
  cases msgs with
  | nil => rfl
  | cons m rest =>
    have hm := h m (List.mem_cons_self m rest)
    simp [agentPrompt, hm]

/-! ## Claims -/

/-- C1, counterexample: the backbone raises an exception whose message
contains "maximum context length" (but not "tokens" and not "prompt is
too long"); `chat` returns the generic error string, not the sentinel
`CONVERSATION_LIMIT_EXCEEDED`, refuting the claim as stated. -/
theorem context_limit_phrase_counterexample :
    (chatTurn sampleConfig [] "hello"
        (fun _ _ => ([], some "maximum context length exceeded"))).1
      = "Error: maximum context length exceeded" ∧
    ("Error: maximum context length exceeded" : String) ≠ "CONVERSATION_LIMIT_EXCEEDED" := by
  constructor
  · decide
  · decide

/-- C1, amended: for every turn in which the backbone call raises an
exception whose message contains "maximum context length" and also
contains "tokens" (so that the heuristic of agent.py line 391 matches),
`chat` returns exactly the sentinel `CONVERSATION_LIMIT_EXCEEDED`. -/
theorem context_limit_sentinel_amended (c : Config) (hist h : List Msg) (u e : String)
    (hc : agentGraphReady c = true)
    (h1 : strContains e "maximum context length" = true)
    (h2 : strContains e "tokens" = true) :
    (chatTurn c hist u (fun _ _ => (h, some e))).1 = "CONVERSATION_LIMIT_EXCEEDED" := by
  have hmax : strContains e "maximum" = true :=
    strContains_mono_of_isPrefixOf (by decide) h1
  simp [chatTurn, hc, isContextLimitError, hmax, h2]

/-- Witness for C1 (amended) at a concrete error message. -/
theorem context_limit_sentinel_amended_witness :
    (chatTurn sampleConfig [] "u"
        (fun _ _ => ([], some "maximum context length: 5 tokens over"))).1
      = "CONVERSATION_LIMIT_EXCEEDED" :=
  context_limit_sentinel_amended sampleConfig [] [] "u"
    "maximum context length: 5 tokens over" (by decide) (by decide) (by decide)

/-- C5: when the backbone call raises, `chat` never raises to the caller:
it returns a string that is either the context-limit sentinel or the
generic `Error: <message>` form built from the exception text
(agent.py lines 387-393). -/
theorem chat_failure_total (c : Config) (hist h : List Msg) (u e : String)
    (hc : agentGraphReady c = true) :
    (chatTurn c hist u (fun _ _ => (h, some e))).1 = "CONVERSATION_LIMIT_EXCEEDED" ∨
    (chatTurn c hist u (fun _ _ => (h, some e))).1 = "Error: " ++ e := by
  cases hcl : isContextLimitError e
  · right
    simp [chatTurn, hc, hcl]
  · left
    simp [chatTurn, hc, hcl]

/-- Witness for C5 at a concrete generic failure. -/
theorem chat_failure_total_witness :
    (chatTurn sampleConfig [] "u" (fun _ _ => ([], some "boom"))).1
        = "CONVERSATION_LIMIT_EXCEEDED" ∨
    (chatTurn sampleConfig [] "u" (fun _ _ => ([], some "boom"))).1 = "Error: " ++ "boom" :=
  chat_failure_total sampleConfig [] [] "u" "boom" (by decide)

/-- C7: a turn attempted while the backbone has no usable configuration is
rejected by the guard of agent.py lines 354-355 before the graph (the
DECIDING state) is ever invoked — the result holds for every graph
function — with the fixed not-configured reply, and the checkpointed
history is left exactly as it was (no slot beyond the user's own message
is consumed; in fact nothing at all is appended). -/
theorem not_configured_guard (c : Config) (hist : List Msg) (u : String)
    (g : List Msg → String → List Msg × Option String)
    (hc : is_anthropic_configured c = false) :
    chatTurn c hist u g = (notConfiguredReply, hist) := by
  simp [chatTurn, agentGraphReady, hc]

/-- Witness for C7 at a concrete unconfigured agent. -/
theorem not_configured_guard_witness :
    chatTurn {} [] "who is on call"
        (fun h u => (h ++ [Msg.human (Content.text u)], none))
      = (notConfiguredReply, []) :=
  not_configured_guard {} [] "who is on call"
    (fun h u => (h ++ [Msg.human (Content.text u)], none)) (by decide)

/-- C9: `clear_history` is a no-op (its body is `pass`, agent.py 469-472):
the stored checkpointer state is unchanged, and so is every subsequent
history read. -/
theorem clear_history_noop (saver : MemorySaver) (tid tid2 : String) (b : Bool) :
    clear_history saver tid = saver ∧
    getConversationHistory b (Except.ok (clear_history saver tid tid2)) =
      getConversationHistory b (Except.ok (saver tid2)) :=
  ⟨rfl, rfl⟩

/-- C3, counterexample: when the graph result contains no assistant
message with truthy content, `chat` returns the fixed apology string of
agent.py line 385, which is not the string "no response generated"
claimed by the spec. -/
theorem final_answer_fallback_counterexample :
    chatResult [Msg.human (Content.text "hi"), Msg.ai (Content.text "") []] = chatFallback ∧
    chatFallback ≠ "no response generated" := by
  constructor
  · decide
  · decide

/-- C3, amended: on success `chat` returns the rendered text of the
trailing assistant message whenever that message has truthy content (in
particular the trailing tool-call-free assistant message of a successful
turn), and when no assistant message in the result has truthy content it
returns the fixed non-empty fallback string "I apologize, but I could
not generate a response. Please try again." rather than an empty
string. -/
theorem final_answer_extraction_amended :
    (∀ (pre : List Msg) (c : Content), contentTruthy c = true →
        chatResult (pre ++ [Msg.ai c []]) = renderContentChat c) ∧
    (∀ msgs : List Msg, (∀ m ∈ msgs, aiWithContent m = false) →
        chatResult msgs = chatFallback) := by
  constructor
  · intro pre c hc
    exact chatResult_append_final pre c [] hc
  · intro msgs h
    have hs : chatScan msgs.reverse = none :=
      chatScan_eq_none (fun m hm => h m (List.mem_reverse.mp hm))
    simp [chatResult, hs]

/-- Witness for C3 (amended) at concrete message lists. -/
theorem final_answer_extraction_amended_witness :
    chatResult ([Msg.human (Content.text "q")] ++ [Msg.ai (Content.text "ans") []]) =
      renderContentChat (Content.text "ans") ∧
    chatResult [Msg.human (Content.text "q"), Msg.system (Content.text "s")] = chatFallback :=
  ⟨final_answer_extraction_amended.1 [Msg.human (Content.text "q")]
      (Content.text "ans") (by decide),
   final_answer_extraction_amended.2
      [Msg.human (Content.text "q"), Msg.system (Content.text "s")] (by decide)⟩

/-- C10: `get_conversation_history` only ever emits entries with role
"user" or "assistant"; a message rendered to `none` (system messages,
tool messages, assistant messages with empty content) is silently
omitted wherever it sits in the state; and a failed state read returns
the empty list instead of raising. -/
theorem history_render_shape :
    (∀ (b : Bool) (r : Except String (List Msg)) (entry : HistEntry),
        entry ∈ getConversationHistory b r →
        entry.role = "user" ∨ entry.role = "assistant") ∧
    (∀ (pre post : List Msg) (m : Msg), renderMsg m = none →
        renderMsgs (pre ++ m :: post) = renderMsgs (pre ++ post)) ∧
    (∀ (b : Bool) (e : String), getConversationHistory b (Except.error e) = []) ∧
    (∀ (c : Content) (cid : String),
        renderMsg (Msg.system c) = none ∧ renderMsg (Msg.tool c cid) = none) ∧
    (∀ (c : Content) (calls : List String), contentTruthy c = false →
        renderMsg (Msg.ai c calls) = none) := by
  refine ⟨?_, ?_, ?_, ?_, ?_⟩
  · intro b r entry hmem
    cases b with
    | false => simp [getConversationHistory] at hmem
    | true =>
      cases r with
      | error e => simp [getConversationHistory] at hmem
      | ok msgs =>
        simp [getConversationHistory, renderMsgs, List.mem_filterMap] at hmem
        obtain ⟨m, _, hm⟩ := hmem
        cases m with
        | human c =>
          left
          injection hm with h
          rw [← h]
        | ai c calls =>
          cases hc : contentTruthy c with
          | false => simp [renderMsg, hc] at hm
          | true =>
            right
            simp [renderMsg, hc] at hm
            rw [← hm]
        | system c => simp [renderMsg] at hm
        | tool c cid => simp [renderMsg] at hm
  · intro pre post m h
    simp [renderMsgs, List.filterMap_append, List.filterMap_cons, h]
  · intro b e
    cases b <;> rfl
  · intro c cid
    exact ⟨rfl, rfl⟩
  · intro c calls hc
    simp [renderMsg, hc]

/-- Witness for C10 at concrete inputs. -/
theorem history_render_shape_witness :
    ((⟨"user", Content.text "hi"⟩ : HistEntry).role = "user" ∨
     (⟨"user", Content.text "hi"⟩ : HistEntry).role = "assistant") ∧
    renderMsgs ([Msg.human (Content.text "hi")] ++
        Msg.system (Content.text "s") :: [Msg.ai (Content.text "a") []]) =
      renderMsgs ([Msg.human (Content.text "hi")] ++ [Msg.ai (Content.text "a") []]) ∧
    getConversationHistory true (Except.error "boom") = [] :=
  ⟨history_render_shape.1 true (Except.ok [Msg.human (Content.text "hi")])
      ⟨"user", Content.text "hi"⟩ (by decide),
   history_render_shape.2.1 [Msg.human (Content.text "hi")] [Msg.ai (Content.text "a") []]
      (Msg.system (Content.text "s")) (by decide),
   history_render_shape.2.2.1 true "boom"⟩

/-- C2, counterexample: after one successful turn the rendered history is
`[user, assistant]` — its first element is the user message with role
"user", not the fixed system message, refuting the claim as stated. -/
theorem rendered_history_first_counterexample :
    renderMsgs (sessionState [⟨Content.text "hi", [], Content.text "hello"⟩]) =
      [⟨"user", Content.text "hi"⟩, ⟨"assistant", Content.text "hello"⟩] ∧
    (⟨"user", Content.text "hi"⟩ : HistEntry).role ≠ "system" ∧
    (sessionState [⟨Content.text "hi", [], Content.text "hello"⟩]).head? =
      some (Msg.human (Content.text "hi")) := by
  refine ⟨by decide, by decide, by decide⟩

/-- C2, amended: the stored session state after any number of successful
turns never contains a system message — the fixed system message is
instead prepended, idempotently and exactly once, to the prompt passed to
each backbone call by `agent_node`, and is never persisted; consequently
the rendered history, if non-empty, begins with the session's first user
message (role "user"), not with the system message. -/
theorem system_message_injection_amended (turns : List Turn) :
    (∀ m ∈ sessionState turns, isSystemMsg m = false) ∧
    agentPrompt (sessionState turns) =
      Msg.system (Content.text SYSTEM_PROMPT) :: sessionState turns ∧
    (agentPrompt (sessionState turns)).countP (fun m => isSystemMsg m) = 1 ∧
    ∀ t ts, turns = t :: ts →
      (renderMsgs (sessionState turns)).head? = some ⟨"user", t.user⟩ := by
  have hns := sessionState_no_system turns
  refine ⟨hns, agentPrompt_of_no_system hns, ?_, ?_⟩
  · rw [agentPrompt_of_no_system hns, List.countP_cons]
    have h0 : (sessionState turns).countP (fun m => isSystemMsg m) = 0 :=
      List.countP_eq_zero.mpr (fun m hm => by simp [hns m hm])
    rw [h0]
    rfl
  · intro t ts hts
    subst hts
    simp [sessionState, turnMsgs, renderMsgs, renderMsg]

/-- Witness for C2 (amended) at a concrete one-turn session. -/
theorem system_message_injection_amended_witness :
    agentPrompt (sessionState [⟨Content.text "a", [], Content.text "b"⟩]) =
      Msg.system (Content.text SYSTEM_PROMPT) ::
        sessionState [⟨Content.text "a", [], Content.text "b"⟩] ∧
    (renderMsgs (sessionState [⟨Content.text "a", [], Content.text "b"⟩])).head? =
      some ⟨"user", Content.text "a"⟩ :=
  ⟨(system_message_injection_amended [⟨Content.text "a", [], Content.text "b"⟩]).2.1,
   (system_message_injection_amended [⟨Content.text "a", [], Content.text "b"⟩]).2.2.2
      ⟨Content.text "a", [], Content.text "b"⟩ [] rfl⟩

/-- C6, counterexample: on a backbone exception whose message matches the
context-limit heuristic, `chat` returns the sentinel while `chat_stream`
yields the generic error chunk (agent.py line 441 has no sentinel check),
so the two terminal classifications differ. -/
theorem stream_sentinel_counterexample :
    (chatTurn sampleConfig [] "hi" (fun _ _ => ([], some "prompt is too long"))).1 =
      "CONVERSATION_LIMIT_EXCEEDED" ∧
    chatStream sampleConfig [] (some "prompt is too long") = ["Error: prompt is too long"] ∧
    ("Error: prompt is too long" : String) ≠ "CONVERSATION_LIMIT_EXCEEDED" := by
  refine ⟨by decide, by decide, by decide⟩

/-- C6, amended: `chat_stream` shares `chat`'s not-configured guard and
graph invocation, delivers assistant text incrementally with advisory
tool-name markers, and agrees with `chat` on the final text of a
successful turn; but its terminal classification of backbone failures is
always the generic `Error: <message>` chunk — it never produces the
context-limit sentinel. -/
theorem stream_refinement_amended :
    (∀ (c : Config) (events : List (List Msg)) (failure : Option String)
        (hist : List Msg) (u : String) (g : List Msg → String → List Msg × Option String),
        agentGraphReady c = false →
        chatStream c events failure = [notConfiguredReply] ∧
        (chatTurn c hist u g).1 = notConfiguredReply) ∧
    (∀ (c : Config) (events : List (List Msg)) (e : String),
        agentGraphReady c = true →
        chatStream c events (some e) =
          (events.map streamEventChunks).flatten ++ ["Error: " ++ e]) ∧
    (∀ (c : Config) (pre hist : List Msg) (s u : String),
        agentGraphReady c = true → s.isEmpty = false →
        chatStream c [pre ++ [Msg.ai (Content.text s) []]] none = [s] ∧
        (chatTurn c hist u (fun _ _ => (pre ++ [Msg.ai (Content.text s) []], none))).1 = s) := by
  refine ⟨?_, ?_, ?_⟩
  · intro c events failure hist u g hc
    constructor
    · simp [chatStream, hc]
    · simp [chatTurn, hc]
  · intro c events e hc
    simp [chatStream, hc]
  · intro c pre hist s u hc hs
    have hct : contentTruthy (Content.text s) = true := by simp [contentTruthy, hs]
    constructor
    · simp [chatStream, hc, streamEventChunks, List.getLast?_concat, streamChunksOfMsg, hct]
    · simp only [chatTurn, hc, Bool.not_true, Bool.false_eq_true, if_false]
      exact chatResult_append_final pre (Content.text s) [] hct

/-- Witness for C6 (amended) at concrete inputs. -/
theorem stream_refinement_amended_witness :
    (chatStream {} [] none = [notConfiguredReply] ∧
     (chatTurn {} [] "u" (fun h _ => (h, none))).1 = notConfiguredReply) ∧
    chatStream sampleConfig [[Msg.human (Content.text "u")]] (some "x") =
      ([[Msg.human (Content.text "u")]].map streamEventChunks).flatten ++ ["Error: " ++ "x"] ∧
    (chatStream sampleConfig [[] ++ [Msg.ai (Content.text "ok") []]] none = ["ok"] ∧
     (chatTurn sampleConfig [] "u"
        (fun _ _ => ([] ++ [Msg.ai (Content.text "ok") []], none))).1 = "ok") :=
  ⟨stream_refinement_amended.1 {} [] none [] "u" (fun h _ => (h, none)) (by decide),
   stream_refinement_amended.2.1 sampleConfig [[Msg.human (Content.text "u")]] "x" (by decide),
   stream_refinement_amended.2.2 sampleConfig [] [] "ok" "u" (by decide) (by decide)⟩

/-- `PagerDutyTools._handle_error` always returns an error dict. -/
theorem pdHandleError_is_error (k e op : String) :
    ∃ m, pdHandleError k e op = ToolResult.error m := by
  unfold pdHandleError
  split
  · split
    · exact ⟨_, rfl⟩
    · exact ⟨_, rfl⟩
  · split
    · exact ⟨_, rfl⟩
    · exact ⟨_, rfl⟩

/-- `DatadogTools._handle_error` always returns an error dict. -/
theorem ddHandleError_is_error (k1 k2 e op : String) :
    ∃ m, ddHandleError k1 k2 e op = ToolResult.error m := by
  unfold ddHandleError
  split
  · split
    · exact ⟨_, rfl⟩
    · exact ⟨_, rfl⟩
  · split
    · exact ⟨_, rfl⟩
    · exact ⟨_, rfl⟩

/-- A PagerDuty operation whose collaborator call raised returns an error
dict, whatever the session/configuration state. -/
theorem pdToolCall_error_is_error (sOk : Bool) (k op e : String) :
    ∃ m, pdToolCall sOk k op (Except.error e) = ToolResult.error m := by
  unfold pdToolCall
  cases sOk with
  | false => exact ⟨_, rfl⟩
  | true => simpa using pdHandleError_is_error k e op

/-- A Datadog operation whose collaborator call raised returns an error
dict, whatever the client/configuration state. -/
theorem ddToolCall_error_is_error (cOk : Bool) (k1 k2 op e : String) :
    ∃ m, ddToolCall cOk k1 k2 op (Except.error e) = ToolResult.error m := by
  unfold ddToolCall
  cases cOk with
  | false => exact ⟨_, rfl⟩
  | true => simpa using ddHandleError_is_error k1 k2 e op

/-- C4: invoking a registered tool never lets an exception reach the
caller of `invoke`: the result is always a structured `ToolResult`, and
both a missing required argument and an exception raised by the wrapped
external collaborator produce an error dict containing the key
`error`. -/
theorem tool_invoke_structured_errors :
    (∀ (t : ToolSpec) (args : List (String × String)),
        hasRequiredArgs t args = false →
        ∃ m, invokeTool t args = ToolResult.error m) ∧
    (∀ (name op apiKey : String) (required : List String) (sessionOk : Bool)
        (e : String) (args : List (String × String)),
        ∃ m, invokeTool ⟨name, required,
            fun _ => pdToolCall sessionOk apiKey op (Except.error e)⟩ args =
          ToolResult.error m) ∧
    (∀ (name op apiKey appKey : String) (required : List String) (clientOk : Bool)
        (e : String) (args : List (String × String)),
        ∃ m, invokeTool ⟨name, required,
            fun _ => ddToolCall clientOk apiKey appKey op (Except.error e)⟩ args =
          ToolResult.error m) := by
  refine ⟨?_, ?_, ?_⟩
  · intro t args h
    unfold invokeTool
    rw [h]
    exact ⟨_, rfl⟩
  · intro name op apiKey required sOk e args
    unfold invokeTool
    split
    · exact pdToolCall_error_is_error sOk apiKey op e
    · exact ⟨_, rfl⟩
  · intro name op apiKey appKey required cOk e args
    unfold invokeTool
    split
    · exact ddToolCall_error_is_error cOk apiKey appKey op e
    · exact ⟨_, rfl⟩

/-- Witness for C4 at concrete tools, arguments and failures. -/
theorem tool_invoke_structured_errors_witness :
    (∃ m, invokeTool ⟨"pagerduty_get_incident_details", ["incident_id"],
        fun _ => pdToolCall true "key" "fetch incident details"
          (Except.error "401 Unauthorized")⟩ [] = ToolResult.error m) ∧
    (∃ m, invokeTool ⟨"pagerduty_get_incidents", [],
        fun _ => pdToolCall true "key" "fetch incidents" (Except.error "boom")⟩ [] =
      ToolResult.error m) ∧
    (∃ m, invokeTool ⟨"datadog_get_apm_services", [],
        fun _ => ddToolCall true "k" "a" "fetch APM services"
          (Except.error "403 Forbidden")⟩ [] = ToolResult.error m) :=
  ⟨tool_invoke_structured_errors.1
      ⟨"pagerduty_get_incident_details", ["incident_id"],
        fun _ => pdToolCall true "key" "fetch incident details"
          (Except.error "401 Unauthorized")⟩ [] (by decide),
   tool_invoke_structured_errors.2.1 "pagerduty_get_incidents" "fetch incidents" "key"
      [] true "boom" [],
   tool_invoke_structured_errors.2.2 "datadog_get_apm_services" "fetch APM services"
      "k" "a" [] true "403 Forbidden" []⟩

/-- C8: each capability check is a pure function of the configuration
values of its own integration — except the cluster backend, which
additionally consults only the filesystem existence of the (expanded)
kubeconfig path — and `_setup_tools` registers an integration's fixed
set of named operations exactly when that integration reports
configured. -/
theorem capability_gate_registry :
    (∀ c1 c2 : Config, c1.anthropic_api_key = c2.anthropic_api_key →
        is_anthropic_configured c1 = is_anthropic_configured c2) ∧
    (∀ c1 c2 : Config, c1.datadog_api_key = c2.datadog_api_key →
        c1.datadog_app_key = c2.datadog_app_key →
        is_datadog_configured c1 = is_datadog_configured c2) ∧
    (∀ c1 c2 : Config, c1.pagerduty_api_key = c2.pagerduty_api_key →
        is_pagerduty_configured c1 = is_pagerduty_configured c2) ∧
    (∀ c1 c2 : Config, c1.sqs_enabled = c2.sqs_enabled →
        is_sqs_configured c1 = is_sqs_configured c2) ∧
    (∀ (c : Config) (fs1 fs2 : String → Bool) (expand : String → String),
        fs1 (expand c.kubeconfig_path) = fs2 (expand c.kubeconfig_path) →
        is_kubernetes_configured fs1 expand c = is_kubernetes_configured fs2 expand c) ∧
    (∀ (c : Config) (fs : String → Bool) (expand : String → String) (n : String),
        n ∈ setupToolNames fs expand c ↔
          ((is_datadog_configured c = true ∧ n ∈ datadogToolNames) ∨
           (is_pagerduty_configured c = true ∧ n ∈ pagerdutyToolNames) ∨
           (is_kubernetes_configured fs expand c = true ∧ n ∈ kubernetesToolNames) ∨
           (is_sqs_configured c = true ∧ n ∈ sqsToolNames))) := by
  refine ⟨?_, ?_, ?_, ?_, ?_, ?_⟩
  · intro c1 c2 h
    simp [is_anthropic_configured, h]
  · intro c1 c2 h1 h2
    simp [is_datadog_configured, h1, h2]
  · intro c1 c2 h
    simp [is_pagerduty_configured, h]
  · intro c1 c2 h
    simp [is_sqs_configured, h]
  · intro c fs1 fs2 expand h
    simp [is_kubernetes_configured, h]
  · intro c fs expand n
    unfold setupToolNames
    cases h1 : is_datadog_configured c <;>
      cases h2 : is_pagerduty_configured c <;>
        cases h3 : is_kubernetes_configured fs expand c <;>
          cases h4 : is_sqs_configured c <;>
            simp [h1, h2, h3, h4, List.mem_append]

/-- Witness for C8 at a concrete configuration and filesystem. -/
theorem capability_gate_registry_witness :
    is_anthropic_configured {} = is_anthropic_configured {} ∧
    is_kubernetes_configured (fun _ => true) id {} =
      is_kubernetes_configured (fun _ => true) id {} ∧
    ("k8s_list_pods" ∈ setupToolNames (fun _ => true) id {} ↔
      ((is_datadog_configured {} = true ∧ "k8s_list_pods" ∈ datadogToolNames) ∨
       (is_pagerduty_configured {} = true ∧ "k8s_list_pods" ∈ pagerdutyToolNames) ∨
       (is_kubernetes_configured (fun _ => true) id {} = true ∧
          "k8s_list_pods" ∈ kubernetesToolNames) ∨
       (is_sqs_configured {} = true ∧ "k8s_list_pods" ∈ sqsToolNames))) :=
  ⟨capability_gate_registry.1 {} {} rfl,
   capability_gate_registry.2.2.2.2.1 {} (fun _ => true) (fun _ => true) id rfl,
   capability_gate_registry.2.2.2.2.2 {} (fun _ => true) id "k8s_list_pods"⟩

end SRECopilot
